import Mathlib

/-!
Verification of the pump-fun-token-launcher core against its specification.

The development shallowly embeds the transaction-construction and queue logic
of the repository: the bonding-curve quote, the per-instruction account lists,
the sell/launch request paths, and the rate-limited launch queue loop.
Numbers handled as JavaScript floating point in the source (SOL amounts) are
embedded as rationals; token amounts and timestamps are naturals.
-/

namespace PumpLauncher

/-
## CurveMath

`calculateTokenAmountForBuy` is imported from `./utils`, a module whose source
is not available; only its call site (the dev-buy branch of `launchToken`) is.
-/

/-- Modelled from the spec: `calculateTokenAmountForBuy` (the spec's
`quoteBuy(solIn, virtualTokenReserves, virtualSolReserves, feeBps)`) lives in
the missing `./utils` module.  Per the spec: effective input
`= solIn * (10000 - feeBps) / 10000`, and
`tokensOut = floor(virtualTokenReserves * effectiveIn / (virtualSolReserves + effectiveIn))`,
total over non-negative integer inputs with `virtualSolReserves > 0` and
failing (`InvalidReserves`) on non-positive fund reserves. -/
def quoteBuy (solIn vTok vSol feeBps : Nat) : Option Nat :=
  if vSol = 0 then
    none
  else
    let e := solIn * (10000 - feeBps) / 10000
    some (vTok * e / (vSol + e))

/-
## Instruction account lists

The create / buy / sell instructions each carry a fixed ordered account list
with signer/writable flags (sell.ts: `sellKeys`, `buyKeys`, and the create
`keys`).  Accounts are embedded by role; each role stands for the concrete
address bound at that position in the source.
-/

/-- Roles of the accounts appearing in the built instructions. -/
inductive AcctRole
  | globalConfig
  | feeRecipient
  | mint
  | bondingCurve
  | assocBondingCurve
  | userTokenAccount
  | owner
  | systemProgram
  | creatorVault
  | tokenProgram
  | eventAuthority
  | programId
  | globalVolumeAccumulator
  | userVolumeAccumulator
  | feeConfig
  | feeProgram
  | mintAuthority
  | metadataProgram
  | metadata
  | assocTokenProgram
  | rent
  | programAccount
  deriving DecidableEq, Repr

/-- One entry of an instruction's account list (a web3 `AccountMeta`). -/
structure AcctMeta where
  pubkey : AcctRole
  isSigner : Bool
  isWritable : Bool
  deriving DecidableEq, Repr

/-- The sell instruction's account list (`sellKeys`, sell.ts lines 163-178). -/
def sellKeys : List AcctMeta :=
  [⟨.globalConfig, false, false⟩,
   ⟨.feeRecipient, false, true⟩,
   ⟨.mint, false, false⟩,
   ⟨.bondingCurve, false, true⟩,
   ⟨.assocBondingCurve, false, true⟩,
   ⟨.userTokenAccount, false, true⟩,
   ⟨.owner, true, true⟩,
   ⟨.systemProgram, false, false⟩,
   ⟨.creatorVault, false, true⟩,
   ⟨.tokenProgram, false, false⟩,
   ⟨.eventAuthority, false, false⟩,
   ⟨.programId, false, false⟩,
   ⟨.feeConfig, false, false⟩,
   ⟨.feeProgram, false, false⟩]

/-- The dev-buy instruction's account list (`buyKeys`, launch source lines
481-498). -/
def buyKeys : List AcctMeta :=
  [⟨.globalConfig, false, false⟩,
   ⟨.feeRecipient, false, true⟩,
   ⟨.mint, false, false⟩,
   ⟨.bondingCurve, false, true⟩,
   ⟨.assocBondingCurve, false, true⟩,
   ⟨.userTokenAccount, false, true⟩,
   ⟨.owner, true, true⟩,
   ⟨.systemProgram, false, false⟩,
   ⟨.tokenProgram, false, false⟩,
   ⟨.creatorVault, false, true⟩,
   ⟨.eventAuthority, false, false⟩,
   ⟨.programId, false, false⟩,
   ⟨.globalVolumeAccumulator, false, true⟩,
   ⟨.userVolumeAccumulator, false, true⟩,
   ⟨.feeConfig, false, false⟩,
   ⟨.feeProgram, false, false⟩]

/-- The create instruction's account list (`keys`, launch source lines
393-408). -/
def createKeys : List AcctMeta :=
  [⟨.mint, true, true⟩,
   ⟨.mintAuthority, false, false⟩,
   ⟨.bondingCurve, false, true⟩,
   ⟨.assocBondingCurve, false, true⟩,
   ⟨.globalConfig, false, false⟩,
   ⟨.metadataProgram, false, false⟩,
   ⟨.metadata, false, true⟩,
   ⟨.owner, true, true⟩,
   ⟨.systemProgram, false, false⟩,
   ⟨.tokenProgram, false, false⟩,
   ⟨.assocTokenProgram, false, false⟩,
   ⟨.rent, false, false⟩,
   ⟨.programAccount, false, false⟩,
   ⟨.programId, false, false⟩]

/-- The buy/sell account schema exactly as the spec's words give it:
global-config, fee-recipient[w], mint, bonding-curve[w],
associated-bonding-curve[w], user-token-account[w], owner[s,w],
system-program, creator-vault[w], token-program, event-authority, program-id,
volume-accumulators[w] (buy only), fee-config, fee-program. -/
def specBuySellSchema (isBuy : Bool) : List AcctMeta :=
  [⟨.globalConfig, false, false⟩,
   ⟨.feeRecipient, false, true⟩,
   ⟨.mint, false, false⟩,
   ⟨.bondingCurve, false, true⟩,
   ⟨.assocBondingCurve, false, true⟩,
   ⟨.userTokenAccount, false, true⟩,
   ⟨.owner, true, true⟩,
   ⟨.systemProgram, false, false⟩,
   ⟨.creatorVault, false, true⟩,
   ⟨.tokenProgram, false, false⟩,
   ⟨.eventAuthority, false, false⟩,
   ⟨.programId, false, false⟩] ++
  (if isBuy then
    [⟨.globalVolumeAccumulator, false, true⟩,
     ⟨.userVolumeAccumulator, false, true⟩]
   else []) ++
  [⟨.feeConfig, false, false⟩,
   ⟨.feeProgram, false, false⟩]

/-- The create account schema exactly as the spec's words give it. -/
def specCreateSchema : List AcctMeta :=
  [⟨.mint, true, true⟩,
   ⟨.mintAuthority, false, false⟩,
   ⟨.bondingCurve, false, true⟩,
   ⟨.assocBondingCurve, false, true⟩,
   ⟨.globalConfig, false, false⟩,
   ⟨.metadataProgram, false, false⟩,
   ⟨.metadata, false, true⟩,
   ⟨.owner, true, true⟩,
   ⟨.systemProgram, false, false⟩,
   ⟨.tokenProgram, false, false⟩,
   ⟨.assocTokenProgram, false, false⟩,
   ⟨.rent, false, false⟩,
   ⟨.programAccount, false, false⟩,
   ⟨.programId, false, false⟩]

/-- The claimed buy schema after the one change the code forces: positions 9
and 10 (1-based) are transposed, so token-program precedes creator-vault. -/
def specBuySchemaSwapped : List AcctMeta :=
  [⟨.globalConfig, false, false⟩,
   ⟨.feeRecipient, false, true⟩,
   ⟨.mint, false, false⟩,
   ⟨.bondingCurve, false, true⟩,
   ⟨.assocBondingCurve, false, true⟩,
   ⟨.userTokenAccount, false, true⟩,
   ⟨.owner, true, true⟩,
   ⟨.systemProgram, false, false⟩,
   ⟨.tokenProgram, false, false⟩,
   ⟨.creatorVault, false, true⟩,
   ⟨.eventAuthority, false, false⟩,
   ⟨.programId, false, false⟩,
   ⟨.globalVolumeAccumulator, false, true⟩,
   ⟨.userVolumeAccumulator, false, true⟩,
   ⟨.feeConfig, false, false⟩,
   ⟨.feeProgram, false, false⟩]


/-
## Sell path (sell.ts)

SOL amounts, slippage percentages and fees are JavaScript numbers in the
source; they are embedded as rationals.  The chain is an oracle supplying the
answers the RPC node would give.  Network interactions are recorded as an
ordered effect list so that "before any network call" is expressible.
-/

/-- One RPC round trip made by the sell/launch paths. -/
inductive NetCall
  | getAccountInfo
  | getTokenBalance
  | sendTransaction
  | getParsedTransaction
  deriving DecidableEq, Repr

/-- `SellConfig` (sell.ts lines 10-16). -/
structure SellConfig where
  tokenMint : String
  tokenAmount : ℚ
  minSolOut : ℚ
  slippage : ℚ
  priorityFee : ℚ
  deriving DecidableEq, Repr

/-- `validateSellConfig` (sell.ts lines 260-282): throws on the first failing
check, mirrored as `Except.error` with the thrown message. -/
def validateSellConfig (c : SellConfig) : Except String Unit :=
  if c.tokenMint = "" then
    Except.error "Token mint address is required"
  else if c.tokenAmount = 0 ∨ c.tokenAmount ≤ 0 then
    Except.error "Token amount must be greater than 0"
  else if c.minSolOut < 0 then
    Except.error "Minimum SOL output must be non-negative"
  else if c.slippage < 0 ∨ 100 < c.slippage then
    Except.error "Slippage must be between 0 and 100"
  else if c.priorityFee < 0 then
    Except.error "Priority fee must be non-negative"
  else
    Except.ok ()

/-- The net SOL change reported for a confirmed sell (sell.ts lines 219-227):
`diff = postBalance - preBalance`; the reported figure is `diff / 1e9` when
`diff > 0` and `0` otherwise. -/
def settlementDelta (preBalance postBalance : Int) : ℚ :=
  if 0 < postBalance - preBalance then
    ((postBalance - preBalance : Int) : ℚ) / 1000000000
  else 0

/-- The sell instruction actually encoded (sell.ts lines 163-191): account
list `sellKeys`, token amount, and minimum SOL output. -/
structure SellInstr where
  keys : List AcctMeta
  amount : Nat
  minSolOut : Nat
  deriving DecidableEq, Repr

/-- Chain oracle for one run of `sellToken`. -/
structure SellEnv where
  mintExists : Bool
  tokenBalance : Nat
  confirmed : Bool
  txAvailable : Bool
  preBalance : Int
  postBalance : Int
  deriving DecidableEq, Repr

/-- Result of `sellToken` (sell.ts `SellResult`), extended with the built
instruction as a ghost observable. -/
structure SellResultM where
  success : Bool
  error : Option String
  solReceived : Option ℚ
  builtIx : Option SellInstr
  deriving DecidableEq, Repr

/-- `sellToken` (sell.ts lines 35-253): validates the config with
`tokenAmount` replaced by the placeholder 1 (line 48), polls the mint account
up to 5 times, fetches the owner's current token balance, builds the sell
instruction from that live balance with `minSolOut` hardcoded to 0 (lines
143-144), submits, and on confirmation reports the clamped settlement delta
(falling back to `minSolOutLamports / 1e9 = 0` when the transaction details
are unavailable). -/
def sellTokenRun (env : SellEnv) (c : SellConfig) : List NetCall × SellResultM :=
  match validateSellConfig { c with tokenAmount := 1 } with
  | Except.error msg =>
      ([], { success := false, error := some msg, solReceived := none, builtIx := none })
  | Except.ok _ =>
      if env.mintExists = false then
        (List.replicate 5 NetCall.getAccountInfo,
         { success := false, error := some "Token mint does not exist after 5 attempts",
           solReceived := none, builtIx := none })
      else
        let ix : SellInstr :=
          { keys := sellKeys, amount := env.tokenBalance, minSolOut := 0 }
        let calls := [NetCall.getAccountInfo, NetCall.getTokenBalance,
                      NetCall.sendTransaction]
        if env.confirmed then
          let delta : ℚ :=
            if env.txAvailable then settlementDelta env.preBalance env.postBalance
            else 0
          (calls ++ [NetCall.getParsedTransaction],
           { success := true, error := none, solReceived := some delta,
             builtIx := some ix })
        else
          (calls,
           { success := false, error := some "Transaction failed to confirm",
             solReceived := none, builtIx := some ix })

/-
## Launch path (launch source in sell.ts lines 300-566)
-/

/-- `TokenLaunchConfig` (index.ts): the numeric fields are optional; `none`
models an absent property. -/
structure TokenLaunchConfig where
  name : String
  symbol : String
  metadataUrl : String
  initialBuy : Option ℚ
  slippage : Option ℚ
  priorityFee : Option ℚ
  deriving DecidableEq, Repr

/-- `name.trim().length === 0` holds exactly when every character of the
string is whitespace; embedded structurally so it is executable. -/
def trimmedEmpty (s : String) : Bool :=
  s.data.all Char.isWhitespace

/-- `validateTokenConfig` (launch source lines 544-566).  This exported helper
is not invoked by `launchToken`. -/
def validateTokenConfig (c : TokenLaunchConfig) : Except String Bool :=
  if c.name = "" ∨ trimmedEmpty c.name then
    Except.error "Token name is required"
  else if c.symbol = "" ∨ trimmedEmpty c.symbol then
    Except.error "Token symbol is required"
  else if 10 < c.symbol.length then
    Except.error "Token symbol must be 10 characters or less"
  else if c.initialBuy.getD 0 < 0 then
    Except.error "Initial buy amount must be positive"
  else if c.slippage.getD 0 < 0 ∨ 100 < c.slippage.getD 0 then
    Except.error "Slippage must be between 0 and 100"
  else
    Except.ok true

/-- Chain oracle for one run of `launchToken`. -/
structure LaunchEnv where
  tokenAccountExists : Bool
  confirmed : Bool
  deriving DecidableEq, Repr

/-- Result of `launchToken` (index.ts `LaunchResult`), restricted to the
fields the claims mention. -/
structure LaunchResultM where
  success : Bool
  error : Option String
  deriving DecidableEq, Repr

/-- `launchToken` (launch source lines 300-537): its only pre-network
validation is the falsiness check on `name`, `symbol` and `metadataUrl`
(lines 306-309); afterwards it derives addresses locally, optionally queries
the buyer's token account when a positive initial buy is requested, and
submits the transaction. -/
def launchTokenRun (env : LaunchEnv) (c : TokenLaunchConfig) :
    List NetCall × LaunchResultM :=
  if c.name = "" ∨ c.symbol = "" ∨ c.metadataUrl = "" then
    ([], { success := false, error := some "Token name and symbol are required" })
  else
    let initialBuy := c.initialBuy.getD 0
    let buyCalls : List NetCall :=
      if 0 < initialBuy then [NetCall.getAccountInfo] else []
    let calls := buyCalls ++ [NetCall.sendTransaction]
    if env.confirmed then
      (calls, { success := true, error := none })
    else
      (calls, { success := false, error := some "Transaction failed to confirm" })

/-
## LaunchQueue (services/queueManager.ts)

The processing loop is embedded as a fuel-indexed step function over the
manager's state.  The wall clock (`Date.now()`) is a `now` field advanced by
the loop's own sleeps; the orchestrator is an oracle supplying one `Outcome`
per dispatched request.  The loop's observable behaviour is recorded as an
ordered action trace: queue persistence, the network call dispatching a
request (annotated with the counter and pending list at dispatch time), and
sleeps.
-/

/-- What one `orchestrator.launchTokenFromTweet` call comes back with:
a result with `success = true` (carrying the optional `solSpent` field),
a result with `success = false`, or a thrown error. -/
inductive Outcome
  | success (solSpent : Option ℚ)
  | failure
  | thrown
  deriving DecidableEq, Repr

/-- The queue manager's configuration (constructor, lines 46-64). -/
structure QMConfig where
  hourlyLimit : Nat
  budgetLimit : ℚ
  launchDelaySeconds : Nat
  deriving DecidableEq, Repr

/-- The queue manager's mutable state, plus the model clock and the outcome
oracle. -/
structure QMState where
  queue : List String
  paused : Bool
  launchesThisHour : Nat
  hourResetTime : Nat
  budgetUsed : ℚ
  budgetResetTime : Nat
  totalProcessed : Nat
  totalFailed : Nat
  now : Nat
  outcomes : List Outcome
  deriving DecidableEq, Repr

/-- The next daily-budget reset instant (`setHours(24, 0, 0, 0)`), modelled as
the next multiple of 86,400,000 ms strictly after `now`. -/
def nextMidnightAfter (now : Nat) : Nat :=
  (now / 86400000 + 1) * 86400000

/-- First half of `checkAndResetCounters` (lines 232-237): reset the hourly
counter once its reset instant has passed. -/
def resetHourCounter (s : QMState) : QMState :=
  if s.hourResetTime ≤ s.now then
    { s with launchesThisHour := 0, hourResetTime := s.now + 3600000 }
  else s

/-- Second half of `checkAndResetCounters` (lines 239-245): reset the daily
budget once its reset instant has passed. -/
def resetBudgetCounter (s : QMState) : QMState :=
  if s.budgetResetTime ≤ s.now then
    { s with budgetUsed := 0, budgetResetTime := nextMidnightAfter s.now }
  else s

/-- `checkAndResetCounters` (lines 229-246). -/
def checkAndResetCounters (s : QMState) : QMState :=
  resetBudgetCounter (resetHourCounter s)

/-- The statistics update after one `launchTokenFromTweet` call returns
(lines 138-159): a returned result increments the hourly counter and the
processed counter, adds the reported spend on success, and increments the
failed counter on a reported failure; a thrown error reaches only the catch
block, which increments the failed counter. -/
def applyOutcome (s : QMState) : Outcome → QMState
  | Outcome.success spent =>
      { s with launchesThisHour := s.launchesThisHour + 1,
               totalProcessed := s.totalProcessed + 1,
               budgetUsed :=
                 match spent with
                 | none => s.budgetUsed
                 | some v => if v = 0 then s.budgetUsed else s.budgetUsed + v }
  | Outcome.failure =>
      { s with launchesThisHour := s.launchesThisHour + 1,
               totalProcessed := s.totalProcessed + 1,
               totalFailed := s.totalFailed + 1 }
  | Outcome.thrown =>
      { s with totalFailed := s.totalFailed + 1 }

/-- Observable actions of the processing loop.  `launch` is the network call
into the orchestrator, annotated with the hourly counter and the in-memory
pending list at the moment of the call. -/
inductive QAction
  | persist (pending : List String)
  | launch (id : String) (counterAtDispatch : Nat) (pendingAtDispatch : List String)
  | sleep (ms : Nat)
  deriving DecidableEq, Repr

/-- Advance the model clock by a slept duration. -/
def sleepStep (s : QMState) (wait : Nat) : QMState :=
  { s with now := s.now + wait }

/-- The state after shifting the head id off the queue (persisting it) and
running one orchestrator call: the pending list becomes `rest`, one outcome is
consumed from the oracle, and the statistics update is applied. -/
def dispatchState (sc : QMState) (rest : List String) : QMState :=
  applyOutcome { sc with queue := rest, outcomes := sc.outcomes.tail }
    (sc.outcomes.headD Outcome.failure)

/-- The inter-launch delay (lines 162-165): sleep `launchDelaySeconds` when
the queue is still non-empty and the delay is positive. -/
def delayState (cfg : QMConfig) (s2 : QMState) (rest : List String) : QMState :=
  if rest = [] ∨ cfg.launchDelaySeconds = 0 then s2
  else { s2 with now := s2.now + cfg.launchDelaySeconds * 1000 }

/-- The sleep action emitted by the inter-launch delay, when any. -/
def delayActions (cfg : QMConfig) (rest : List String) : List QAction :=
  if rest = [] ∨ cfg.launchDelaySeconds = 0 then []
  else [QAction.sleep (cfg.launchDelaySeconds * 1000)]

/-- `processQueue` (lines 93-170), fuel-indexed.  Each iteration: stop when
the queue is empty or the manager is paused; reset expired counters; if the
hourly counter is at the limit, sleep `min(remaining hour, 5 min)` and
re-check; likewise for the budget; otherwise shift the head id, persist the
queue, call the orchestrator, apply the statistics update, and sleep the
inter-launch delay when the queue is still non-empty. -/
def processQueue (cfg : QMConfig) : Nat → QMState → QMState × List QAction
  | 0, s => (s, [])
  | n + 1, s =>
    match s.queue, s.paused with
    | [], _ => (s, [])
    | _ :: _, true => (s, [])
    | id :: rest, false =>
      let sc := checkAndResetCounters s
      if cfg.hourlyLimit ≤ sc.launchesThisHour then
        let wait := min (sc.hourResetTime - sc.now) 300000
        let r := processQueue cfg n (sleepStep sc wait)
        (r.1, QAction.sleep wait :: r.2)
      else if cfg.budgetLimit ≤ sc.budgetUsed then
        let wait := min (sc.budgetResetTime - sc.now) 300000
        let r := processQueue cfg n (sleepStep sc wait)
        (r.1, QAction.sleep wait :: r.2)
      else
        let r := processQueue cfg n (delayState cfg (dispatchState sc rest) rest)
        (r.1, QAction.persist rest :: QAction.launch id sc.launchesThisHour rest ::
          (delayActions cfg rest ++ r.2))

/-- Checks that every network call in a trace is immediately preceded by a
persistence of the pending list, and that the dispatched id is on neither the
persisted list nor the pending list at the moment of the call. -/
def launchesSafe : List QAction → Bool
  | [] => true
  | QAction.persist q :: QAction.launch id _ p :: rest =>
      decide (id ∉ q) && decide (id ∉ p) && launchesSafe rest
  | QAction.persist _ :: rest => launchesSafe rest
  | QAction.sleep _ :: rest => launchesSafe rest
  | QAction.launch _ _ _ :: _ => false

/-- Checks that every network call in a trace was dispatched with the hourly
counter strictly below the given limit. -/
def launchesUnderLimit (limit : Nat) : List QAction → Bool
  | [] => true
  | QAction.launch _ c _ :: rest => decide (c < limit) && launchesUnderLimit limit rest
  | QAction.persist _ :: rest => launchesUnderLimit limit rest
  | QAction.sleep _ :: rest => launchesUnderLimit limit rest

/-
## Concrete scenarios
-/

/-- Hourly limit 2, ample budget, no inter-launch delay. -/
def cfgTwoPerHour : QMConfig :=
  { hourlyLimit := 2, budgetLimit := 100, launchDelaySeconds := 0 }

/-- Three ids queued at clock 0, an hour until the hourly reset, all launches
succeeding (no spend reported). -/
def stateThreeQueued : QMState :=
  { queue := ["a", "b", "c"], paused := false, launchesThisHour := 0,
    hourResetTime := 3600000, budgetUsed := 0, budgetResetTime := 86400000,
    totalProcessed := 0, totalFailed := 0, now := 0,
    outcomes := [Outcome.success none, Outcome.success none,
                 Outcome.success none] }

/-- Hourly limit 10, ample budget, no inter-launch delay. -/
def cfgPermissive : QMConfig :=
  { hourlyLimit := 10, budgetLimit := 100, launchDelaySeconds := 0 }

/-- One queued id whose launch throws. -/
def stateThrowOne : QMState :=
  { queue := ["x"], paused := false, launchesThisHour := 0,
    hourResetTime := 3600000, budgetUsed := 0, budgetResetTime := 86400000,
    totalProcessed := 0, totalFailed := 0, now := 0,
    outcomes := [Outcome.thrown] }

/-- Two queued ids: the first launch throws, the second succeeds with a spend
of 1. -/
def stateThrowThenOk : QMState :=
  { queue := ["x", "y"], paused := false, launchesThisHour := 0,
    hourResetTime := 3600000, budgetUsed := 0, budgetResetTime := 86400000,
    totalProcessed := 0, totalFailed := 0, now := 0,
    outcomes := [Outcome.thrown, Outcome.success (some 1)] }

/-- The sell configuration the orchestrator passes to `sellToken`
(orchestrator.ts lines 188-194): sell all, minimum 0.04 SOL, 5% slippage,
0.0001 SOL priority fee. -/
def orchSellConfig : SellConfig :=
  { tokenMint := "TokenMint", tokenAmount := 0, minSolOut := 4 / 100,
    slippage := 5, priorityFee := 1 / 10000 }

/-- Chain oracle sample: mint exists, owner holds 123 tokens, everything
confirms. -/
def sampleSellEnv : SellEnv :=
  { mintExists := true, tokenBalance := 123, confirmed := true,
    txAvailable := true, preBalance := 0, postBalance := 0 }

/-- A sell request recording 500 tokens at creation time (differing from the
live balance of `sampleSellEnv`). -/
def sampleSellConfig : SellConfig :=
  { tokenMint := "MintAddress", tokenAmount := 500, minSolOut := 0,
    slippage := 5, priorityFee := 0 }

/-- Chain oracle whose confirmed sell shows the owner's lamport balance
dropping from 100 to 90. -/
def negDeltaEnv : SellEnv :=
  { mintExists := true, tokenBalance := 42, confirmed := true,
    txAvailable := true, preBalance := 100, postBalance := 90 }

/-- Chain oracle for the orchestrator's sell (owner holds 777 tokens). -/
def orchSellEnv : SellEnv :=
  { mintExists := true, tokenBalance := 777, confirmed := true,
    txAvailable := true, preBalance := 0, postBalance := 0 }

/-- A launch request whose 11-character symbol exceeds the documented limit. -/
def overlongSymbolConfig : TokenLaunchConfig :=
  { name := "A", symbol := "ABCDEFGHIJK", metadataUrl := "u",
    initialBuy := none, slippage := none, priorityFee := none }

/-- A launch request with a missing (empty) name. -/
def emptyNameConfig : TokenLaunchConfig :=
  { name := "", symbol := "S", metadataUrl := "u",
    initialBuy := none, slippage := none, priorityFee := none }

/-- Launch-path chain oracle sample. -/
def sampleLaunchEnv : LaunchEnv :=
  { tokenAccountExists := true, confirmed := true }

/-- A sell request with slippage 101, outside the interval from 0 to 100. -/
def badSlippageSellConfig : SellConfig :=
  { tokenMint := "MintAddress", tokenAmount := 1, minSolOut := 0,
    slippage := 101, priorityFee := 0 }

/-
## Theorems
-/

/-- Floor division of the constant-product payout is monotone in the
effective input. -/
lemma curve_div_mono (vTok vSol e1 e2 : Nat) (hs : 0 < vSol) (he : e1 ≤ e2) :
    vTok * e1 / (vSol + e1) ≤ vTok * e2 / (vSol + e2) := by
  rcases Nat.eq_zero_or_pos e1 with h0 | hpos
  · subst h0
    simp
  · rw [Nat.le_div_iff_mul_le (by omega : 0 < vSol + e2)]
    have h1 : vTok * e1 / (vSol + e1) * (vSol + e1) ≤ vTok * e1 :=
      Nat.div_mul_le_self _ _
    have h2 : vTok * e1 / (vSol + e1) * (vSol + e2) * e1 ≤ vTok * e2 * e1 := by
      have hstep : vTok * e1 / (vSol + e1) * (vSol + e2) * e1 ≤
          vTok * e1 / (vSol + e1) * (vSol + e1) * e2 := by
        nlinarith [Nat.mul_le_mul_left (vTok * e1 / (vSol + e1) * vSol) he]
      have hstep2 : vTok * e1 / (vSol + e1) * (vSol + e1) * e2 ≤ vTok * e1 * e2 :=
        Nat.mul_le_mul_right e2 h1
      calc vTok * e1 / (vSol + e1) * (vSol + e2) * e1
          ≤ vTok * e1 / (vSol + e1) * (vSol + e1) * e2 := hstep
        _ ≤ vTok * e1 * e2 := hstep2
        _ = vTok * e2 * e1 := by ring
    exact Nat.le_of_mul_le_mul_right h2 hpos

/-- The constant-product payout is strictly below the token reserves when both
reserves are positive. -/
lemma curve_lt_reserves (vTok vSol e : Nat) (ht : 0 < vTok) (hs : 0 < vSol) :
    vTok * e / (vSol + e) < vTok := by
  rw [Nat.div_lt_iff_lt_mul (by omega : 0 < vSol + e)]
  nlinarith

/-- Claim C1: for all non-negative integer inputs with positive fund reserves, the
buy quote equals `floor(vTok * effectiveIn / (vSol + effectiveIn))` with
`effectiveIn = solIn * (10000 - feeBps) / 10000`; at the spec's example
(reserves 1,000,000 / 1,000, input 100, zero fee) the quote is 90909. -/
theorem quoteBuy_formula_and_example :
    (∀ solIn vTok vSol feeBps : Nat, 0 < vSol →
      quoteBuy solIn vTok vSol feeBps =
        some (vTok * (solIn * (10000 - feeBps) / 10000) /
          (vSol + solIn * (10000 - feeBps) / 10000))) ∧
    quoteBuy 100 1000000 1000 0 = some 90909 := by
  constructor
  · intro solIn vTok vSol feeBps hs
    simp [quoteBuy, Nat.pos_iff_ne_zero.mp hs]
  · decide

/-- Witness for C1: the hypothesis `0 < vSol` holds at the spec's example and
the theorem evaluates there. -/
theorem quoteBuy_formula_and_example_witness :
    0 < 1000 ∧ quoteBuy 100 1000000 1000 0 =
      some (1000000 * (100 * (10000 - 0) / 10000) /
        (1000 + 100 * (10000 - 0) / 10000)) :=
  ⟨by decide, quoteBuy_formula_and_example.1 100 1000000 1000 0 (by decide)⟩

/-- Claim C2: for fixed reserves the buy quote is monotone in the input, and every
quote returned for valid (positive) reserves is strictly less than the virtual
token reserves. -/
theorem quoteBuy_monotone_and_bounded :
    (∀ x y vTok vSol feeBps tx ty : Nat, x ≤ y → 0 < vSol →
      quoteBuy x vTok vSol feeBps = some tx →
      quoteBuy y vTok vSol feeBps = some ty → tx ≤ ty) ∧
    (∀ solIn vTok vSol feeBps t : Nat, 0 < vTok → 0 < vSol →
      quoteBuy solIn vTok vSol feeBps = some t → t < vTok) := by
  constructor
  · intro x y vTok vSol feeBps tx ty hxy hs hx hy
    have hns := Nat.pos_iff_ne_zero.mp hs
    simp only [quoteBuy, hns, if_false] at hx hy
    obtain rfl : vTok * (x * (10000 - feeBps) / 10000) /
        (vSol + x * (10000 - feeBps) / 10000) = tx := Option.some.inj hx
    obtain rfl : vTok * (y * (10000 - feeBps) / 10000) /
        (vSol + y * (10000 - feeBps) / 10000) = ty := Option.some.inj hy
    exact curve_div_mono vTok vSol _ _ hs
      (Nat.div_le_div_right (Nat.mul_le_mul_right _ hxy))
  · intro solIn vTok vSol feeBps t ht hs hq
    have hns := Nat.pos_iff_ne_zero.mp hs
    simp only [quoteBuy, hns, if_false] at hq
    obtain rfl : vTok * (solIn * (10000 - feeBps) / 10000) /
        (vSol + solIn * (10000 - feeBps) / 10000) = t := Option.some.inj hq
    exact curve_lt_reserves vTok vSol _ ht hs

/-- Witness for C2: both conjuncts applied at concrete inputs. -/
theorem quoteBuy_monotone_and_bounded_witness :
    (50 ≤ 100 ∧ 0 < 1000 ∧ 47619 ≤ 90909) ∧ (90909 < 1000000) :=
  ⟨⟨by decide, by decide,
      quoteBuy_monotone_and_bounded.1 50 100 1000000 1000 0 47619 90909
        (by decide) (by decide) (by decide) (by decide)⟩,
    quoteBuy_monotone_and_bounded.2 100 1000000 1000 0 90909
      (by decide) (by decide) (by decide)⟩

/-- Claim C5 counterexample: the built buy account list does not match the claimed
buy schema — at index 8 the code places the token program where the claim
places the (writable) creator vault. -/
theorem buyKeys_ne_claimed_schema :
    buyKeys ≠ specBuySellSchema true ∧
    buyKeys[8]? = some ⟨.tokenProgram, false, false⟩ ∧
    (specBuySellSchema true)[8]? = some ⟨.creatorVault, false, true⟩ := by
  refine ⟨by decide, by decide, by decide⟩

/-- Claim C5 amended: the create and sell account lists match the claimed schemas
exactly; the buy account list matches the claimed schema with positions 9 and
10 transposed (token-program before creator-vault) and with both the global
and the user volume accumulator listed writable. -/
theorem account_lists_match_schemas :
    createKeys = specCreateSchema ∧
    sellKeys = specBuySellSchema false ∧
    buyKeys = specBuySchemaSwapped := by
  refine ⟨by decide, by decide, by decide⟩

/-
## Projection lemmas for the queue step functions
-/

lemma checkAndResetCounters_queue (s : QMState) :
    (checkAndResetCounters s).queue = s.queue := by
  unfold checkAndResetCounters resetBudgetCounter resetHourCounter
  split_ifs <;> rfl

lemma checkAndResetCounters_paused (s : QMState) :
    (checkAndResetCounters s).paused = s.paused := by
  unfold checkAndResetCounters resetBudgetCounter resetHourCounter
  split_ifs <;> rfl

lemma applyOutcome_queue (s : QMState) (o : Outcome) :
    (applyOutcome s o).queue = s.queue := by
  cases o <;> rfl

lemma sleepStep_queue (s : QMState) (w : Nat) : (sleepStep s w).queue = s.queue := rfl

lemma dispatchState_queue (sc : QMState) (rest : List String) :
    (dispatchState sc rest).queue = rest := by
  unfold dispatchState
  rw [applyOutcome_queue]

lemma delayState_queue (cfg : QMConfig) (s2 : QMState) (rest : List String) :
    (delayState cfg s2 rest).queue = s2.queue := by
  unfold delayState
  split <;> rfl

lemma delayState_launchesThisHour (cfg : QMConfig) (s2 : QMState) (rest : List String) :
    (delayState cfg s2 rest).launchesThisHour = s2.launchesThisHour := by
  unfold delayState
  split <;> rfl

lemma delayState_budgetUsed (cfg : QMConfig) (s2 : QMState) (rest : List String) :
    (delayState cfg s2 rest).budgetUsed = s2.budgetUsed := by
  unfold delayState
  split <;> rfl

lemma delayState_totalProcessed (cfg : QMConfig) (s2 : QMState) (rest : List String) :
    (delayState cfg s2 rest).totalProcessed = s2.totalProcessed := by
  unfold delayState
  split <;> rfl

lemma delayState_totalFailed (cfg : QMConfig) (s2 : QMState) (rest : List String) :
    (delayState cfg s2 rest).totalFailed = s2.totalFailed := by
  unfold delayState
  split <;> rfl

lemma launchesSafe_delay (cfg : QMConfig) (rest : List String) (l : List QAction) :
    launchesSafe (delayActions cfg rest ++ l) = launchesSafe l := by
  unfold delayActions
  split
  · simp [launchesSafe]
  · simp [launchesSafe]

lemma launchesUnderLimit_delay (limit : Nat) (cfg : QMConfig) (rest : List String)
    (l : List QAction) :
    launchesUnderLimit limit (delayActions cfg rest ++ l) = launchesUnderLimit limit l := by
  unfold delayActions
  split
  · simp [launchesUnderLimit]
  · simp [launchesUnderLimit]

/-
## Trace invariants of the processing loop
-/

/-- The pending list only ever shrinks across a run of the loop: the final
queue is a suffix of the starting queue (no id is ever re-appended). -/
lemma processQueue_queue_suffix (cfg : QMConfig) :
    ∀ (fuel : Nat) (s : QMState),
      List.IsSuffix (processQueue cfg fuel s).1.queue s.queue := by
  intro fuel
  induction fuel with
  | zero =>
    intro s
    exact List.suffix_refl _
  | succ n ih =>
    intro s
    rw [processQueue]
    cases hq : s.queue with
    | nil =>
      dsimp only
      exact hq ▸ List.suffix_refl _
    | cons id rest =>
      cases hp : s.paused with
      | true =>
        dsimp only
        exact hq ▸ List.suffix_refl _
      | false =>
        dsimp only
        by_cases h1 : cfg.hourlyLimit ≤ (checkAndResetCounters s).launchesThisHour
        · rw [if_pos h1]
          have h := ih (sleepStep (checkAndResetCounters s)
            (min ((checkAndResetCounters s).hourResetTime - (checkAndResetCounters s).now) 300000))
          rw [sleepStep_queue, checkAndResetCounters_queue, hq] at h
          exact h
        · rw [if_neg h1]
          by_cases h2 : cfg.budgetLimit ≤ (checkAndResetCounters s).budgetUsed
          · rw [if_pos h2]
            have h := ih (sleepStep (checkAndResetCounters s)
              (min ((checkAndResetCounters s).budgetResetTime - (checkAndResetCounters s).now) 300000))
            rw [sleepStep_queue, checkAndResetCounters_queue, hq] at h
            exact h
          · rw [if_neg h2]
            have h := ih (delayState cfg (dispatchState (checkAndResetCounters s) rest) rest)
            rw [delayState_queue, dispatchState_queue] at h
            exact h.trans (List.suffix_cons id rest)

/-- Over a duplicate-free queue, every orchestrator call in the trace is
immediately preceded by a persistence of the pending list from which the
dispatched id has already been removed. -/
lemma processQueue_launchesSafe (cfg : QMConfig) :
    ∀ (fuel : Nat) (s : QMState), s.queue.Nodup →
      launchesSafe (processQueue cfg fuel s).2 = true := by
  intro fuel
  induction fuel with
  | zero =>
    intro s _
    rfl
  | succ n ih =>
    intro s hnd
    rw [processQueue]
    cases hq : s.queue with
    | nil => rfl
    | cons id rest =>
      cases hp : s.paused with
      | true => rfl
      | false =>
        dsimp only
        rw [hq] at hnd
        rw [List.nodup_cons] at hnd
        by_cases h1 : cfg.hourlyLimit ≤ (checkAndResetCounters s).launchesThisHour
        · rw [if_pos h1]
          simp only [launchesSafe]
          exact ih _ (by
            rw [sleepStep_queue, checkAndResetCounters_queue, hq]
            exact List.nodup_cons.mpr hnd)
        · rw [if_neg h1]
          by_cases h2 : cfg.budgetLimit ≤ (checkAndResetCounters s).budgetUsed
          · rw [if_pos h2]
            simp only [launchesSafe]
            exact ih _ (by
              rw [sleepStep_queue, checkAndResetCounters_queue, hq]
              exact List.nodup_cons.mpr hnd)
          · rw [if_neg h2]
            simp only [launchesSafe, launchesSafe_delay]
            rw [ih (delayState cfg (dispatchState (checkAndResetCounters s) rest) rest)
              (by rw [delayState_queue, dispatchState_queue]; exact hnd.2)]
            simp [hnd.1]

/-- Every orchestrator call in the trace happens with the hourly counter
strictly below the hourly limit. -/
lemma processQueue_underLimit (cfg : QMConfig) :
    ∀ (fuel : Nat) (s : QMState),
      launchesUnderLimit cfg.hourlyLimit (processQueue cfg fuel s).2 = true := by
  intro fuel
  induction fuel with
  | zero =>
    intro s
    rfl
  | succ n ih =>
    intro s
    rw [processQueue]
    cases hq : s.queue with
    | nil => rfl
    | cons id rest =>
      cases hp : s.paused with
      | true => rfl
      | false =>
        dsimp only
        by_cases h1 : cfg.hourlyLimit ≤ (checkAndResetCounters s).launchesThisHour
        · rw [if_pos h1]
          simp only [launchesUnderLimit]
          exact ih _
        · rw [if_neg h1]
          by_cases h2 : cfg.budgetLimit ≤ (checkAndResetCounters s).budgetUsed
          · rw [if_pos h2]
            simp only [launchesUnderLimit]
            exact ih _
          · rw [if_neg h2]
            simp only [launchesUnderLimit, launchesUnderLimit_delay]
            rw [ih (delayState cfg (dispatchState (checkAndResetCounters s) rest) rest)]
            simp [not_le.mp h1]

/-- One fuel unit of the loop, when a dispatch actually happens: the final
state is the dispatched state (plus the optional delay sleep) and the trace is
persist-then-launch. -/
lemma processQueue_one_dispatch (cfg : QMConfig) (s : QMState) (id : String)
    (rest : List String) (hq : s.queue = id :: rest) (hp : s.paused = false)
    (hL : (checkAndResetCounters s).launchesThisHour < cfg.hourlyLimit)
    (hB : (checkAndResetCounters s).budgetUsed < cfg.budgetLimit) :
    (processQueue cfg 1 s).1 =
      delayState cfg (dispatchState (checkAndResetCounters s) rest) rest ∧
    (processQueue cfg 1 s).2 =
      QAction.persist rest ::
        QAction.launch id (checkAndResetCounters s).launchesThisHour rest ::
        (delayActions cfg rest ++ []) := by
  have e : (1 : Nat) = 0 + 1 := rfl
  rw [e, processQueue, hq, hp]
  dsimp only
  rw [if_neg (not_le.mpr hL), if_neg (not_le.mpr hB)]
  exact ⟨rfl, rfl⟩

/-
## Queue claim theorems
-/

/-- Claim C3: in every run of the processing loop over a duplicate-free
pending list, a request id that begins processing is removed from the
in-memory pending list and the queue state is persisted immediately before
the orchestrator call for it is issued; no orchestrator call is made for an
id still on the pending list; and the pending list only ever shrinks, so a
failed id is never automatically re-appended. -/
theorem queue_removes_and_persists_before_launch (cfg : QMConfig) (fuel : Nat)
    (s : QMState) (hnd : s.queue.Nodup) :
    launchesSafe (processQueue cfg fuel s).2 = true ∧
    List.IsSuffix (processQueue cfg fuel s).1.queue s.queue :=
  ⟨processQueue_launchesSafe cfg fuel s hnd, processQueue_queue_suffix cfg fuel s⟩

/-- Witness for C3: the duplicate-free hypothesis holds for the three-id
scenario and the theorem applies there. -/
theorem queue_removes_and_persists_before_launch_witness :
    stateThreeQueued.queue.Nodup ∧
    (launchesSafe (processQueue cfgTwoPerHour 16 stateThreeQueued).2 = true ∧
     List.IsSuffix (processQueue cfgTwoPerHour 16 stateThreeQueued).1.queue
       stateThreeQueued.queue) :=
  ⟨by decide,
    queue_removes_and_persists_before_launch cfgTwoPerHour 16 stateThreeQueued (by decide)⟩

/-- Claim C4: the loop never dispatches a launch while the hourly counter is
at or above the hourly limit; concretely, with hourly limit 2 and three ids
queued an hour before the reset instant, exactly two requests are dispatched
and then the loop waits in bounded five-minute slices; only once the clock
reaches the reset instant (3,600,000 ms) is the counter reset and the third
request dispatched at counter 0, leaving the counter at 1 — only post-reset
activity. -/
theorem queue_hourly_rate_limit :
    (∀ (cfg : QMConfig) (fuel : Nat) (s : QMState),
      launchesUnderLimit cfg.hourlyLimit (processQueue cfg fuel s).2 = true) ∧
    (processQueue cfgTwoPerHour 16 stateThreeQueued).2 =
      [QAction.persist ["b", "c"], QAction.launch "a" 0 ["b", "c"],
       QAction.persist ["c"], QAction.launch "b" 1 ["c"]] ++
      List.replicate 12 (QAction.sleep 300000) ++
      [QAction.persist [], QAction.launch "c" 0 []] ∧
    (processQueue cfgTwoPerHour 16 stateThreeQueued).1.launchesThisHour = 1 ∧
    (processQueue cfgTwoPerHour 16 stateThreeQueued).1.now = 3600000 :=
  ⟨fun cfg => processQueue_underLimit cfg, by decide, by decide, by decide⟩

/-
## Sell-path claim theorems
-/

/-- Every instruction the sell path builds encodes the live on-chain balance
of the owner, regardless of the configuration's fields. -/
lemma sellTokenRun_builtIx (env : SellEnv) (c : SellConfig) (r : SellInstr)
    (h : (sellTokenRun env c).2.builtIx = some r) :
    r = { keys := sellKeys, amount := env.tokenBalance, minSolOut := 0 } := by
  unfold sellTokenRun at h
  cases hv : validateSellConfig { c with tokenAmount := 1 } with
  | error msg =>
    rw [hv] at h
    simp at h
  | ok u =>
    rw [hv] at h
    dsimp only at h
    by_cases hm : env.mintExists = false
    · rw [if_pos hm] at h
      simp at h
    · rw [if_neg hm] at h
      by_cases hc : env.confirmed = true
      · rw [if_pos hc] at h
        exact (Option.some.inj h).symm
      · rw [if_neg hc] at h
        exact (Option.some.inj h).symm

/-- Claim C6: the token amount encoded into every built sell instruction is
the owner's current on-chain balance fetched right before building, never the
amount recorded in the request; concretely, with a recorded amount of 500 and
a live balance of 123, the built instruction carries 123. -/
theorem sell_encodes_live_balance :
    (∀ (env : SellEnv) (c : SellConfig) (r : SellInstr),
      (sellTokenRun env c).2.builtIx = some r → r.amount = env.tokenBalance) ∧
    ((sellTokenRun sampleSellEnv sampleSellConfig).2.builtIx =
      some { keys := sellKeys, amount := 123, minSolOut := 0 } ∧
     sampleSellConfig.tokenAmount = 500 ∧ sampleSellEnv.tokenBalance = 123) := by
  refine ⟨?_, by decide, rfl, rfl⟩
  intro env c r h
  rw [sellTokenRun_builtIx env c r h]

/-- Witness for C6: the universal conjunct applied at the sample oracle whose
live balance (123) differs from the recorded amount (500). -/
theorem sell_encodes_live_balance_witness :
    (sellTokenRun sampleSellEnv sampleSellConfig).2.builtIx =
      some { keys := sellKeys, amount := 123, minSolOut := 0 } ∧
    ({ keys := sellKeys, amount := 123, minSolOut := 0 } : SellInstr).amount =
      sampleSellEnv.tokenBalance :=
  ⟨by decide,
    sell_encodes_live_balance.1 sampleSellEnv sampleSellConfig _ (by decide)⟩

/-- Claim C7 counterexample: for a confirmed sell whose owner balance fell
from 100 to 90, the signed difference is negative, yet the reported
settlement figure is 0, not the negative difference. -/
theorem settlement_delta_clamps_negative :
    settlementDelta 100 90 = 0 ∧
    (90 - 100 : Int) < 0 ∧
    ((90 - 100 : Int) : ℚ) / 1000000000 ≠ 0 ∧
    (sellTokenRun negDeltaEnv badSlippageSellConfig).2.solReceived ≠
      some (((90 - 100 : Int) : ℚ) / 1000000000) ∧
    (sellTokenRun negDeltaEnv sampleSellConfig).2.solReceived = some 0 := by
  refine ⟨by decide, by decide, by norm_num, ?_, by decide⟩
  intro h
  have : (sellTokenRun negDeltaEnv badSlippageSellConfig).2.solReceived = none := by decide
  rw [this] at h
  exact Option.noConfusion h

/-- Claim C7 amended: the settlement computation reports the positive part of
the signed difference, scaled to SOL — `(post - pre) / 1e9` when the
difference is positive and `0` otherwise — and every successful sell with
transaction details available reports exactly this figure. -/
theorem settlement_delta_positive_part :
    (∀ preBalance postBalance : Int,
      settlementDelta preBalance postBalance =
        max (((postBalance - preBalance : Int) : ℚ) / 1000000000) 0) ∧
    (∀ (env : SellEnv) (c : SellConfig),
      (sellTokenRun env c).2.success = true → env.txAvailable = true →
      (sellTokenRun env c).2.solReceived =
        some (settlementDelta env.preBalance env.postBalance)) := by
  constructor
  · intro preBalance postBalance
    unfold settlementDelta
    by_cases h : 0 < postBalance - preBalance
    · rw [if_pos h, max_eq_left]
      have hq : (0 : ℚ) ≤ ((postBalance - preBalance : Int) : ℚ) := by
        exact_mod_cast h.le
      exact div_nonneg hq (by norm_num)
    · rw [if_neg h, max_eq_right]
      have hq : ((postBalance - preBalance : Int) : ℚ) ≤ 0 := by
        exact_mod_cast (not_lt.mp h)
      exact div_nonpos_iff.mpr (Or.inr ⟨hq, by norm_num⟩)
  · intro env c hsucc htx
    unfold sellTokenRun at hsucc ⊢
    cases hv : validateSellConfig { c with tokenAmount := 1 } with
    | error msg =>
      rw [hv] at hsucc
      simp at hsucc
    | ok u =>
      rw [hv] at hsucc
      dsimp only at hsucc ⊢
      by_cases hm : env.mintExists = false
      · rw [if_pos hm] at hsucc
        simp at hsucc
      · rw [if_neg hm] at hsucc ⊢
        by_cases hc : env.confirmed = true
        · rw [if_pos hc]
          rw [if_pos htx]
        · rw [if_neg hc] at hsucc
          simp at hsucc

/-- Witness for C7 amended: the success-path conjunct applied at the oracle
with a falling balance; the reported figure is the (clamped) settlement
delta. -/
theorem settlement_delta_positive_part_witness :
    (sellTokenRun negDeltaEnv sampleSellConfig).2.success = true ∧
    negDeltaEnv.txAvailable = true ∧
    (sellTokenRun negDeltaEnv sampleSellConfig).2.solReceived =
      some (settlementDelta negDeltaEnv.preBalance negDeltaEnv.postBalance) :=
  ⟨by decide, rfl,
    settlement_delta_positive_part.2 negDeltaEnv sampleSellConfig (by decide) rfl⟩

/-- Claim C8 counterexample: a launch attempt that throws appears in the
trace (the orchestrator call was made) yet the hourly counter is not
incremented afterwards — only the failed counter is — contradicting
"incremented on every attempt including failures". -/
theorem thrown_attempt_skips_hourly_counter :
    (processQueue cfgPermissive 2 stateThrowOne).2 =
      [QAction.persist [], QAction.launch "x" 0 []] ∧
    (processQueue cfgPermissive 2 stateThrowOne).1.launchesThisHour = 0 ∧
    (processQueue cfgPermissive 2 stateThrowOne).1.totalProcessed = 0 ∧
    (processQueue cfgPermissive 2 stateThrowOne).1.totalFailed = 1 := by
  refine ⟨by decide, by decide, by decide, by decide⟩

/-- Claim C8 amended: every error raised while running one request is caught
inside the loop (the loop's state remains well-formed and subsequent requests
are still dispatched); an attempt that returns an outcome — success or
reported failure — increments the hourly counter, while a thrown attempt
increments only the failed counter; the budget counter grows only by the
spend reported on a successful outcome.  The second half exhibits a run whose
first launch throws and whose second still runs and books its spend. -/
theorem loop_error_accounting :
    (∀ (cfg : QMConfig) (s : QMState) (id : String) (rest : List String),
      s.queue = id :: rest → s.paused = false →
      (checkAndResetCounters s).launchesThisHour < cfg.hourlyLimit →
      (checkAndResetCounters s).budgetUsed < cfg.budgetLimit →
      (((checkAndResetCounters s).outcomes.headD Outcome.failure = Outcome.thrown →
        (processQueue cfg 1 s).1.launchesThisHour =
          (checkAndResetCounters s).launchesThisHour ∧
        (processQueue cfg 1 s).1.totalProcessed =
          (checkAndResetCounters s).totalProcessed ∧
        (processQueue cfg 1 s).1.totalFailed =
          (checkAndResetCounters s).totalFailed + 1 ∧
        (processQueue cfg 1 s).1.budgetUsed = (checkAndResetCounters s).budgetUsed) ∧
       ((checkAndResetCounters s).outcomes.headD Outcome.failure = Outcome.failure →
        (processQueue cfg 1 s).1.launchesThisHour =
          (checkAndResetCounters s).launchesThisHour + 1 ∧
        (processQueue cfg 1 s).1.totalProcessed =
          (checkAndResetCounters s).totalProcessed + 1 ∧
        (processQueue cfg 1 s).1.totalFailed =
          (checkAndResetCounters s).totalFailed + 1 ∧
        (processQueue cfg 1 s).1.budgetUsed = (checkAndResetCounters s).budgetUsed) ∧
       (∀ v : ℚ, v ≠ 0 →
        (checkAndResetCounters s).outcomes.headD Outcome.failure =
          Outcome.success (some v) →
        (processQueue cfg 1 s).1.launchesThisHour =
          (checkAndResetCounters s).launchesThisHour + 1 ∧
        (processQueue cfg 1 s).1.totalProcessed =
          (checkAndResetCounters s).totalProcessed + 1 ∧
        (processQueue cfg 1 s).1.totalFailed = (checkAndResetCounters s).totalFailed ∧
        (processQueue cfg 1 s).1.budgetUsed =
          (checkAndResetCounters s).budgetUsed + v))) ∧
    ((processQueue cfgPermissive 3 stateThrowThenOk).2 =
      [QAction.persist ["y"], QAction.launch "x" 0 ["y"],
       QAction.persist [], QAction.launch "y" 0 []] ∧
     (processQueue cfgPermissive 3 stateThrowThenOk).1.totalFailed = 1 ∧
     (processQueue cfgPermissive 3 stateThrowThenOk).1.totalProcessed = 1 ∧
     (processQueue cfgPermissive 3 stateThrowThenOk).1.launchesThisHour = 1 ∧
     (processQueue cfgPermissive 3 stateThrowThenOk).1.budgetUsed =
       stateThrowThenOk.budgetUsed + 1) := by
  constructor
  · intro cfg s id rest hq hp hL hB
    have hd := processQueue_one_dispatch cfg s id rest hq hp hL hB
    refine ⟨?_, ?_, ?_⟩
    · intro ho
      rw [hd.1, delayState_launchesThisHour, delayState_totalProcessed,
        delayState_totalFailed, delayState_budgetUsed]
      unfold dispatchState
      rw [ho]
      exact ⟨rfl, rfl, rfl, rfl⟩
    · intro ho
      rw [hd.1, delayState_launchesThisHour, delayState_totalProcessed,
        delayState_totalFailed, delayState_budgetUsed]
      unfold dispatchState
      rw [ho]
      exact ⟨rfl, rfl, rfl, rfl⟩
    · intro v hv ho
      rw [hd.1, delayState_launchesThisHour, delayState_totalProcessed,
        delayState_totalFailed, delayState_budgetUsed]
      unfold dispatchState
      rw [ho]
      refine ⟨rfl, rfl, rfl, ?_⟩
      unfold applyOutcome
      dsimp only
      rw [if_neg hv]
  · refine ⟨by decide, by decide, by decide, by decide, rfl⟩

/-- Witness for C8 amended: the thrown-outcome case applied at the one-id
scenario whose launch throws. -/
theorem loop_error_accounting_witness :
    (stateThrowOne.queue = "x" :: [] ∧ stateThrowOne.paused = false ∧
     (checkAndResetCounters stateThrowOne).launchesThisHour < cfgPermissive.hourlyLimit ∧
     (checkAndResetCounters stateThrowOne).budgetUsed < cfgPermissive.budgetLimit ∧
     (checkAndResetCounters stateThrowOne).outcomes.headD Outcome.failure =
       Outcome.thrown) ∧
    (processQueue cfgPermissive 1 stateThrowOne).1.launchesThisHour =
      (checkAndResetCounters stateThrowOne).launchesThisHour ∧
    (processQueue cfgPermissive 1 stateThrowOne).1.totalProcessed =
      (checkAndResetCounters stateThrowOne).totalProcessed ∧
    (processQueue cfgPermissive 1 stateThrowOne).1.totalFailed =
      (checkAndResetCounters stateThrowOne).totalFailed + 1 ∧
    (processQueue cfgPermissive 1 stateThrowOne).1.budgetUsed =
      (checkAndResetCounters stateThrowOne).budgetUsed :=
  ⟨⟨rfl, rfl, by decide, by decide, by decide⟩,
    (loop_error_accounting.1 cfgPermissive stateThrowOne "x" [] rfl rfl
      (by decide) (by decide)).1 (by decide)⟩

/-- Claim C9 counterexample: a configuration whose symbol has 11 characters
is not rejected by the launch operation before network calls — the launch
path proceeds to its network calls and reports success. -/
theorem overlong_symbol_not_rejected :
    10 < overlongSymbolConfig.symbol.length ∧
    (launchTokenRun sampleLaunchEnv overlongSymbolConfig).1 ≠ [] ∧
    (launchTokenRun sampleLaunchEnv overlongSymbolConfig).2.success = true := by
  refine ⟨by decide, by decide, by decide⟩

/-- Claim C9 amended: `launchToken` rejects only missing name/symbol/metadata
URL before any network call; a symbol longer than 10 characters (or an
out-of-range slippage) is rejected by the separate `validateTokenConfig`
helper, which `launchToken` does not invoke; `sellToken` rejects slippage
outside the range 0 to 100 before any network call; and a rejected id is
never automatically retried — the pending list only ever shrinks. -/
theorem validation_rejection_scope :
    (∀ (env : LaunchEnv) (c : TokenLaunchConfig),
      c.name = "" ∨ c.symbol = "" ∨ c.metadataUrl = "" →
      launchTokenRun env c =
        ([], { success := false,
               error := some "Token name and symbol are required" })) ∧
    (∀ c : TokenLaunchConfig, c.name ≠ "" → trimmedEmpty c.name = false →
      c.symbol ≠ "" → trimmedEmpty c.symbol = false → 10 < c.symbol.length →
      validateTokenConfig c =
        Except.error "Token symbol must be 10 characters or less") ∧
    (∀ c : TokenLaunchConfig, c.name ≠ "" → trimmedEmpty c.name = false →
      c.symbol ≠ "" → trimmedEmpty c.symbol = false → c.symbol.length ≤ 10 →
      ¬ c.initialBuy.getD 0 < 0 →
      c.slippage.getD 0 < 0 ∨ 100 < c.slippage.getD 0 →
      validateTokenConfig c =
        Except.error "Slippage must be between 0 and 100") ∧
    (∀ (env : SellEnv) (c : SellConfig), c.tokenMint ≠ "" → 0 ≤ c.minSolOut →
      c.slippage < 0 ∨ 100 < c.slippage →
      sellTokenRun env c =
        ([], { success := false,
               error := some "Slippage must be between 0 and 100",
               solReceived := none, builtIx := none })) ∧
    (∀ (cfg : QMConfig) (fuel : Nat) (s : QMState),
      List.IsSuffix (processQueue cfg fuel s).1.queue s.queue) := by
  refine ⟨?_, ?_, ?_, ?_, fun cfg => processQueue_queue_suffix cfg⟩
  · intro env c h
    unfold launchTokenRun
    rw [if_pos h]
  · intro c hn1 hn2 hs1 hs2 hlen
    unfold validateTokenConfig
    rw [if_neg (not_or.mpr ⟨hn1, by simp [hn2]⟩),
      if_neg (not_or.mpr ⟨hs1, by simp [hs2]⟩), if_pos hlen]
  · intro c hn1 hn2 hs1 hs2 hlen hib hsl
    unfold validateTokenConfig
    rw [if_neg (not_or.mpr ⟨hn1, by simp [hn2]⟩),
      if_neg (not_or.mpr ⟨hs1, by simp [hs2]⟩),
      if_neg (not_lt.mpr hlen), if_neg hib, if_pos hsl]
  · intro env c hmint hmin hsl
    have hv : validateSellConfig { c with tokenAmount := 1 } =
        Except.error "Slippage must be between 0 and 100" := by
      unfold validateSellConfig
      dsimp only
      rw [if_neg hmint, if_neg (by norm_num : ¬((1 : ℚ) = 0 ∨ (1 : ℚ) ≤ 0)),
        if_neg (not_lt.mpr hmin), if_pos hsl]
    unfold sellTokenRun
    rw [hv]

/-- Witness for C9 amended: the three validation conjuncts applied at
concrete configurations. -/
theorem validation_rejection_scope_witness :
    ((emptyNameConfig.name = "" ∨ emptyNameConfig.symbol = "" ∨
        emptyNameConfig.metadataUrl = "") ∧
     launchTokenRun sampleLaunchEnv emptyNameConfig =
       ([], { success := false,
              error := some "Token name and symbol are required" })) ∧
    (overlongSymbolConfig.name ≠ "" ∧
     trimmedEmpty overlongSymbolConfig.name = false ∧
     overlongSymbolConfig.symbol ≠ "" ∧
     trimmedEmpty overlongSymbolConfig.symbol = false ∧
     10 < overlongSymbolConfig.symbol.length ∧
     validateTokenConfig overlongSymbolConfig =
       Except.error "Token symbol must be 10 characters or less") ∧
    (badSlippageSellConfig.tokenMint ≠ "" ∧
     (0 : ℚ) ≤ badSlippageSellConfig.minSolOut ∧
     (badSlippageSellConfig.slippage < 0 ∨ 100 < badSlippageSellConfig.slippage) ∧
     sellTokenRun sampleSellEnv badSlippageSellConfig =
       ([], { success := false,
              error := some "Slippage must be between 0 and 100",
              solReceived := none, builtIx := none })) :=
  ⟨⟨by decide,
     validation_rejection_scope.1 sampleLaunchEnv emptyNameConfig (by decide)⟩,
   ⟨by decide, by decide, by decide, by decide, by decide,
     validation_rejection_scope.2.1 overlongSymbolConfig (by decide) (by decide)
       (by decide) (by decide) (by decide)⟩,
   ⟨by decide, by decide, by decide,
     validation_rejection_scope.2.2.2.1 sampleSellEnv badSlippageSellConfig
       (by decide) (by decide) (by decide)⟩⟩

/-- The placeholder validation of the sell path does not depend on the
configuration's `tokenAmount` or on a non-negative `minSolOut`. -/
lemma validateSellConfig_ignores (c : SellConfig) (t m : ℚ) (hm : 0 ≤ m) :
    validateSellConfig
        { { c with tokenAmount := t, minSolOut := m } with tokenAmount := 1 } =
      validateSellConfig
        { { c with tokenAmount := c.tokenAmount, minSolOut := 0 } with
            tokenAmount := 1 } := by
  unfold validateSellConfig
  dsimp only
  split_ifs <;> first | rfl | linarith

/-- Claim C10: the sell path ignores the caller-supplied `tokenAmount` and
(non-negative) `minSolOut`: its whole behaviour is unchanged under varying
them, every built instruction encodes minimum output 0, and with the
orchestrator's configuration (`minSolOut` 0.04 SOL, `tokenAmount` 0) the
built instruction still encodes the full live balance with minimum output 0 —
no slippage protection on disposal. -/
theorem sell_ignores_amount_and_min_out :
    (∀ (env : SellEnv) (c : SellConfig) (t tp m mp : ℚ), 0 ≤ m → 0 ≤ mp →
      sellTokenRun env { c with tokenAmount := t, minSolOut := m } =
        sellTokenRun env { c with tokenAmount := tp, minSolOut := mp }) ∧
    (∀ (env : SellEnv) (c : SellConfig) (r : SellInstr),
      (sellTokenRun env c).2.builtIx = some r → r.minSolOut = 0) ∧
    ((sellTokenRun orchSellEnv orchSellConfig).2.builtIx =
      some { keys := sellKeys, amount := 777, minSolOut := 0 } ∧
     0 < orchSellConfig.minSolOut ∧ orchSellConfig.tokenAmount = 0) := by
  refine ⟨?_, ?_, ?_, by norm_num [orchSellConfig], rfl⟩
  · intro env c t tp m mp hm hmp
    unfold sellTokenRun
    rw [validateSellConfig_ignores c t m hm, validateSellConfig_ignores c tp mp hmp]
  · intro env c r h
    rw [sellTokenRun_builtIx env c r h]
  · norm_num [sellTokenRun, validateSellConfig, orchSellConfig]
    rfl

/-- Witness for C10: the invariance conjunct applied at concrete amounts 5/9
and minimum outputs 0/1. -/
theorem sell_ignores_amount_and_min_out_witness :
    (0 : ℚ) ≤ 0 ∧ (0 : ℚ) ≤ 1 ∧
    sellTokenRun orchSellEnv
        { sampleSellConfig with tokenAmount := 5, minSolOut := 0 } =
      sellTokenRun orchSellEnv
        { sampleSellConfig with tokenAmount := 9, minSolOut := 1 } :=
  ⟨by decide, by decide,
    sell_ignores_amount_and_min_out.1 orchSellEnv sampleSellConfig 5 9 0 1
      (by decide) (by decide)⟩

end PumpLauncher
